import Mathlib

set_option autoImplicit false

namespace ChannelManager

/-! Shallow embedding of the batch dispatch and scheduling engine of
`src/main.py` (Advance-channel-manager-error-fix-bot).  Times are modelled as
integer epoch seconds, Python dicts as association lists in insertion order,
and the Telegram transport as an oracle supplied to the dispatch loop.  Each
definition carries the line numbers of the source code it embeds. -/

/-- `SCHEDULE_EXPIRY_DAYS = 7` (main.py:66), converted to seconds
(`timedelta(days=7)` compares equal to 604800 whole seconds). -/
def SCHEDULE_EXPIRY_SECONDS : Int := 7 * 86400

/-- The two hard-coded `FIXED_CHANNELS` keys (main.py:85-98). -/
def FIXED_CHANNEL_IDS : List String := ["-1002504723776", "-1002489624380"]

/-- `validate_channel_id` (main.py:302-303): the id must match the regular
expression `^-100\d{10,}$`, i.e. a literal "-100" followed by at least ten
digits running to the end of the string. -/
def validate_channel_id (s : String) : Bool :=
  match s.toList with
  | '-' :: '1' :: '0' :: '0' :: rest =>
      decide (10 ≤ rest.length) && rest.all (fun c => c.isDigit)
  | _ => false

/-- `validate_user_id` (main.py:305-306): `user_id.isdigit() and
len(user_id) <= 20`.  Python `str.isdigit` requires a non-empty all-digit
string. -/
def validate_user_id (s : String) : Bool :=
  (decide (0 < s.toList.length)) && s.toList.all (fun c => c.isDigit) &&
    decide (s.toList.length ≤ 20)

/-- One entry of the `scheduled_posts` table (created at main.py:2175-2181).
`time` is the stored ISO timestamp after parsing: `none` models a string on
which `datetime.fromisoformat` raises `ValueError`. -/
structure ScheduledJob where
  time : Option Int
  batch_ids : List Nat
  batch_size : Nat
  channels : List String
  user_id : String
deriving Repr, DecidableEq

/-- One entry of the `channels` table: `{name, stats{post_count}}`
(main.py:2084, 209). -/
structure ChannelInfo where
  cname : String
  post_count : Nat
deriving Repr, DecidableEq

/-- One entry of `admin_stats`: `{posts, last_action}` (main.py:215-217); the
wall-clock `last_action` field is not modelled. -/
structure AdminStat where
  posts : Nat
deriving Repr, DecidableEq

/-- The durable configuration document (main.py:132-150).  The
time-valued `stats.last_post` field and the `post_analytics` table are not
needed by any claim and are omitted. -/
structure Config where
  admins : List String
  channels : List (String × ChannelInfo)
  stats_posts : Nat
  stats_batches : Nat
  admin_stats : List (String × AdminStat)
  scheduled_posts : List (String × ScheduledJob)
deriving Repr, DecidableEq

/-- Python `dict` lookup on an association list (first matching key). -/
def lookupKey {β : Type} : List (String × β) → String → Option β
  | [], _ => none
  | p :: rest, k => if p.1 = k then some p.2 else lookupKey rest k

/-- `ConfigManager._initialize_default_config` (main.py:131-150): the default
document seeds the owner as the sole admin and empty tables. -/
def default_config (ownerId : String) : Config :=
  { admins := [ownerId], channels := [], stats_posts := 0, stats_batches := 0,
    admin_stats := [], scheduled_posts := [] }

/-- `check_schedule_conflict` (main.py:321-331): true iff some stored job has
a parseable `time` within (strictly) 300 seconds of the candidate time and a
channel in common with the candidate channel set.  Jobs whose stored time
fails to parse are skipped (`except ValueError: continue`). -/
def check_schedule_conflict (config : Config) (schedule_dt : Int)
    (channels : List String) : Bool :=
  config.scheduled_posts.any fun p =>
    match p.2.time with
    | some job_time =>
        decide ((job_time - schedule_dt).natAbs < 300) &&
          p.2.channels.any (fun c => decide (c ∈ channels))
    | none => false

/-- The two values the `schedule_input` session flag can take when
`handle_schedule_input` runs (main.py:2173, 2191), together with the data the
branch reads: the generated job id for a creation, the session's
`reschedule_job_id` (possibly absent) for a reschedule. -/
inductive ScheduleInputKind where
  | schedule_batch (new_job_id : String)
  | reschedule_batch (reschedule_job_id : Option String)
deriving Repr, DecidableEq

/-- The observable outcome of one `handle_schedule_input` call
(main.py:2130-2214), identified by the reply sent to the operator. -/
inductive ScheduleOutcome where
  | invalidTime
  | emptySelection
  | conflictRejected
  | jobNotFound
  | created (job_id : String)
  | rescheduled (job_id : String)
deriving Repr, DecidableEq

/-- `validate_schedule_time` (main.py:308-315): `parsed` is the result of
`strptime` (`none` on a malformed string); a parsed time strictly less than
five minutes in the future is rejected. -/
def validate_schedule_time (parsed : Option Int) (now : Int) : Option Int :=
  match parsed with
  | none => none
  | some dt => if dt < now + 5 * 60 then none else some dt

/-- In-place `due_time` update of a stored job,
`config["scheduled_posts"][job_id]["time"] = schedule_dt.isoformat()`
(main.py:2203). -/
def setJobTime (jobs : List (String × ScheduledJob)) (jid : String)
    (t : Int) : List (String × ScheduledJob) :=
  jobs.map fun p => if p.1 = jid then (p.1, { p.2 with time := some t }) else p

/-- The scheduled-job record written by the `schedule_batch` branch
(main.py:2175-2181): frozen copies of the batch and channel selection, the
batch length, and the acting operator's id. -/
def mkJob (t : Int) (batch : List Nat) (chans : List String)
    (uid : String) : ScheduledJob :=
  { time := some t, batch_ids := batch, batch_size := batch.length,
    channels := chans, user_id := uid }

/-- `handle_schedule_input` (main.py:2130-2214) for an active
`schedule_input` flag: parse/validate the entered time (main.py:2140-2149),
reject an empty batch or channel selection (main.py:2151-2162), reject on
`check_schedule_conflict` over the whole stored table (main.py:2164-2171;
note the job being rescheduled is *not* excluded), then either insert a new
job (main.py:2173-2189) or, for a reschedule, look up the session's job id
and overwrite its stored time (main.py:2191-2211). -/
def handle_schedule_input (config : Config) (now : Int) (parsed : Option Int)
    (batch : List Nat) (selected_channels : List String)
    (kind : ScheduleInputKind) (user_id : String) :
    ScheduleOutcome × Config :=
  match validate_schedule_time parsed now with
  | none => (.invalidTime, config)
  | some schedule_dt =>
    if batch.isEmpty || selected_channels.isEmpty then
      (.emptySelection, config)
    else if check_schedule_conflict config schedule_dt selected_channels then
      (.conflictRejected, config)
    else
      match kind with
      | .schedule_batch new_job_id =>
          (.created new_job_id,
            { config with scheduled_posts := config.scheduled_posts ++
                [(new_job_id, mkJob schedule_dt batch selected_channels
                    user_id)] })
      | .reschedule_batch rid =>
          match rid with
          | none => (.jobNotFound, config)
          | some jid =>
              if (lookupKey config.scheduled_posts jid).isSome then
                (.rescheduled jid,
                  { config with scheduled_posts :=
                      setJobTime config.scheduled_posts jid schedule_dt })
              else (.jobNotFound, config)

/-- A concrete one-job table used to exhibit the missing self-exclusion on
reschedule: job "J" is due at t = 10000 targeting the first fixed channel. -/
def selfConflictConfig : Config :=
  { admins := ["7"], channels := [], stats_posts := 0, stats_batches := 0,
    admin_stats := [],
    scheduled_posts := [("J", mkJob 10000 [1] ["-1002504723776"] "7")] }

/-- One failure entry of the run's failure map:
`{"error": ..., "message_id": ...}` (main.py:1247, 1273). -/
structure FailEntry where
  error : String
  message_id : Nat
deriving Repr, DecidableEq

/-- The Telegram transport boundary consumed by `execute_post`.  For message
`m`, channel `ch` and (0-based) attempt number `k`:
`copyMessage m ch k = none` models `bot.copy_message` (together with the
preceding `send_chat_action`) returning normally, `some e` models it raising
an exception rendered as `e`; `sendFooter` likewise models the footer
`bot.send_message` call (main.py:1253-1268). -/
structure Transport where
  copyMessage : Nat → String → Nat → Option String
  sendFooter : Nat → String → Nat → Option String

/-- The outcome of one iteration of the retry loop (main.py:1252-1271): the
attempt fails with the exception of `copy_message`, or — when a non-empty
footer is configured — with the exception of the footer send; it succeeds
when every transport call of the iteration returns normally. -/
def attemptErr (t : Transport) (footer : String) (msg : Nat) (ch : String)
    (k : Nat) : Option String :=
  match t.copyMessage msg ch k with
  | some e => some e
  | none => if footer = "" then none else t.sendFooter msg ch k

/-- Events observable while one cell runs: a delivery attempt (with its
0-based number) and the flat `asyncio.sleep(1)` executed after a failed
attempt (main.py:1275). -/
inductive CellEvent where
  | attempt (k : Nat)
  | pauseOneSecond
deriving Repr, DecidableEq

/-- The outcome of one (message, channel) cell: whether some attempt
succeeded, how many attempts ran, how many footer messages were delivered,
the failure entry recorded on exhaustion, and the event trace. -/
structure CellResult where
  success : Bool
  attemptsMade : Nat
  footerCount : Nat
  failRecord : Option FailEntry
  events : List CellEvent
deriving Repr, DecidableEq

/-- The retry loop `for attempt in range(max_retries + 1)` of `execute_post`
(main.py:1251-1275), started at attempt number `k` with `remaining` loop
iterations left.  On success the loop `break`s (no pause); on a failed
attempt with iterations left it pauses one second and retries; on the final
failed attempt (`attempt == max_retries`) it records the failure entry —
the exception text truncated to 500 characters with the message id — and
still executes the one-second pause. -/
def runCellAux (t : Transport) (footer : String) (msg : Nat) (ch : String) :
    Nat → Nat → CellResult
  | _, 0 => { success := false, attemptsMade := 0, footerCount := 0,
              failRecord := none, events := [] }
  | k, 1 =>
    match attemptErr t footer msg ch k with
    | none =>
        { success := true, attemptsMade := 1,
          footerCount := if footer = "" then 0 else 1,
          failRecord := none, events := [.attempt k] }
    | some e =>
        { success := false, attemptsMade := 1, footerCount := 0,
          failRecord := some { error := e.take 500, message_id := msg },
          events := [.attempt k, .pauseOneSecond] }
  | k, remaining + 2 =>
    match attemptErr t footer msg ch k with
    | none =>
        { success := true, attemptsMade := 1,
          footerCount := if footer = "" then 0 else 1,
          failRecord := none, events := [.attempt k] }
    | some _ =>
        let r := runCellAux t footer msg ch (k + 1) (remaining + 1)
        { success := r.success, attemptsMade := r.attemptsMade + 1,
          footerCount := r.footerCount, failRecord := r.failRecord,
          events := .attempt k :: .pauseOneSecond :: r.events }

/-- One full cell: the retry loop from attempt 0 with `max_retries + 1`
total iterations (main.py:1251). -/
def runCell (t : Transport) (footer : String) (max_retries : Nat)
    (msg : Nat) (ch : String) : CellResult :=
  runCellAux t footer msg ch 0 (max_retries + 1)

/-- The event pattern asserted for a cell that made `a` attempts starting at
attempt number `k`: every two consecutive attempts are separated by exactly
one one-second pause, and a final failed attempt is followed by one more
pause (the `asyncio.sleep(1)` at main.py:1275 runs after every failed
attempt) while a final successful attempt ends the cell at once (the `break`
at main.py:1270). -/
def cellTraceShape : Nat → Nat → Bool → List CellEvent
  | _, 0, _ => []
  | k, 1, success =>
      if success then [.attempt k] else [.attempt k, .pauseOneSecond]
  | k, a + 2, success =>
      .attempt k :: .pauseOneSecond :: cellTraceShape (k + 1) (a + 1) success

/-- `failed_posts.setdefault(ch_id, []).append(entry)` (main.py:1247, 1273)
on the insertion-ordered failure map. -/
def appendFail : List (String × List FailEntry) → String → FailEntry →
    List (String × List FailEntry)
  | [], ch, e => [(ch, [e])]
  | (c, es) :: rest, ch, e =>
      if c = ch then (c, es ++ [e]) :: rest
      else (c, es) :: appendFail rest ch e

/-- The running accumulators of `execute_post` (main.py:1216-1219): note
that `completed_operations` is *not* incremented for a cell skipped because
its channel id is malformed (the `continue` at main.py:1249 jumps past
main.py:1277). -/
structure RunState where
  success_count : Nat
  failed_posts : List (String × List FailEntry)
  completed_operations : Nat
deriving Repr, DecidableEq

/-- The body of the dispatch loop for one (message, channel) cell
(main.py:1244-1277): a malformed channel id records an "Invalid channel ID"
failure and skips the cell; otherwise the retry loop runs, a success bumps
`success_count`, an exhausted cell appends its failure entry, and
`completed_operations` is bumped. -/
def processCell (t : Transport) (footer : String) (max_retries : Nat)
    (st : RunState) (cell : Nat × String) : RunState :=
  if validate_channel_id cell.2 = false then
    let fe : FailEntry := { error := "Invalid channel ID", message_id := cell.1 }
    { st with failed_posts := appendFail st.failed_posts cell.2 fe }
  else
    let r := runCell t footer max_retries cell.1 cell.2
    let st1 :=
      if r.success then { st with success_count := st.success_count + 1 }
      else
        match r.failRecord with
        | some fe =>
            { st with failed_posts := appendFail st.failed_posts cell.2 fe }
        | none => st
    { st1 with completed_operations := st1.completed_operations + 1 }

/-- The iteration order of the nested loops `for batch_id in batch_ids: for
ch_id in selected_channels:` (main.py:1244-1245). -/
def cellList (batch_ids : List Nat) (selected_channels : List String) :
    List (Nat × String) :=
  batch_ids.flatMap fun m => selected_channels.map fun c => (m, c)

/-- The dispatch core of `execute_post` (main.py:1216-1303): fold the cell
loop over the whole message × channel product starting from zeroed
accumulators. -/
def execute_post_run (t : Transport) (footer : String) (max_retries : Nat)
    (batch_ids : List Nat) (selected_channels : List String) : RunState :=
  (cellList batch_ids selected_channels).foldl
    (processCell t footer max_retries)
    { success_count := 0, failed_posts := [], completed_operations := 0 }

/-- `sum(len(errors) for errors in failed_posts.values())` (main.py:1287,
1320): the total number of recorded per-channel failures. -/
def totalFailures (fp : List (String × List FailEntry)) : Nat :=
  (fp.map fun p => p.2.length).sum

/-- The number of cells of the run that succeeded on a given channel (the
per-channel success count the C4 claim speaks about). -/
def successCellsOn (t : Transport) (footer : String) (max_retries : Nat)
    (batch_ids : List Nat) (ch : String) : Nat :=
  (batch_ids.filter fun m =>
    (runCell t footer max_retries m ch).success).length

/-- `config["channels"][cid]["stats"]["post_count"] += 1` (main.py:212). -/
def bumpPostCount (q : ChannelInfo) : ChannelInfo :=
  { cname := q.cname, post_count := q.post_count + 1 }

/-- Per-channel step of `ConfigManager.update_stats` (main.py:205-212): a
channel id neither stored nor fixed is skipped; a fixed-but-unstored id gets
a fresh entry with `post_count` 0; then the entry's `post_count` is bumped
by exactly 1 — once per run, whatever the number of successful cells. -/
def update_stats_channel_step (chs : List (String × ChannelInfo))
    (cid : String) : List (String × ChannelInfo) :=
  if (lookupKey chs cid).isNone && decide (cid ∉ FIXED_CHANNEL_IDS) then chs
  else
    (if (lookupKey chs cid).isNone then
      chs ++ [(cid, { cname := "Channel " ++ cid, post_count := 0 })]
    else chs).map fun p =>
      if p.1 = cid then (p.1, bumpPostCount p.2) else p

/-- `config["admin_stats"][admin_id]["posts"] += posts` (main.py:216). -/
def bumpAdminPosts (posts : Nat) (q : AdminStat) : AdminStat :=
  { posts := q.posts + posts }

/-- Admin step of `ConfigManager.update_stats` (main.py:214-217): fetch or
create the admin's record, then add `posts` to its post counter. -/
def update_admin_stats (stats : List (String × AdminStat))
    (admin_id : String) (posts : Nat) : List (String × AdminStat) :=
  match lookupKey stats admin_id with
  | some _ =>
      stats.map fun p =>
        if p.1 = admin_id then (p.1, bumpAdminPosts posts p.2) else p
  | none => stats ++ [(admin_id, { posts := posts })]

/-- `ConfigManager.update_stats` (main.py:196-228) restricted to the fields
the claims read: aggregate post/batch counters, the per-channel loop guarded
by the truthiness of `channels`, and the per-admin counter guarded by the
truthiness of `admin_id`.  The wall-clock `last_post`/`last_action` fields
and the `post_analytics` record are not modelled. -/
def update_stats (cfg : Config) (posts batches : Nat)
    (channels : List String) (admin_id : String) : Config :=
  let cfg1 := { cfg with stats_posts := cfg.stats_posts + posts,
                         stats_batches := cfg.stats_batches + batches }
  let cfg2 :=
    if channels.isEmpty then cfg1
    else { cfg1 with channels :=
        channels.foldl update_stats_channel_step cfg1.channels }
  if admin_id = "" then cfg2
  else { cfg2 with admin_stats :=
      update_admin_stats cfg2.admin_stats admin_id posts }

/-- The `update_stats` call `execute_post` makes on completion
(main.py:1305-1311): `posts = success_count`, `batches = 1`, the selected
channel list, and the acting admin's id. -/
def execute_post_update_stats (cfg : Config) (st : RunState)
    (selected_channels : List String) (admin_id : String) : Config :=
  update_stats cfg st.success_count 1 selected_channels admin_id

/-- The stored `post_count` of a channel entry list, defaulting to 0 when
the channel has no entry. -/
def postCountIn (chs : List (String × ChannelInfo)) (cid : String) : Nat :=
  match lookupKey chs cid with
  | some info => info.post_count
  | none => 0

/-- The stored `post_count` of a channel, defaulting to 0 when the channel
has no entry. -/
def channelPostCount (cfg : Config) (cid : String) : Nat :=
  postCountIn cfg.channels cid

/-- A concrete document used to instantiate the counter-update theorem: one
stored channel with 3 posts, one admin with 4 posts. -/
def statsConfig : Config :=
  { admins := ["7"],
    channels := [("-1002504723776", { cname := "A", post_count := 3 })],
    stats_posts := 10, stats_batches := 2,
    admin_stats := [("7", { posts := 4 })], scheduled_posts := [] }

/-- The stored per-admin post counter of an entry list, defaulting to 0. -/
def adminPostsIn (stats : List (String × AdminStat)) (admin_id : String) :
    Nat :=
  match lookupKey stats admin_id with
  | some st => st.posts
  | none => 0

/-- The stored per-admin post counter, defaulting to 0. -/
def adminPostCount (cfg : Config) (admin_id : String) : Nat :=
  adminPostsIn cfg.admin_stats admin_id

/-- Whether `update_stats` counts this channel id: stored in the document or
hard-coded fixed (main.py:206-207). -/
def knownChannel (chs : List (String × ChannelInfo)) (cid : String) : Prop :=
  (lookupKey chs cid).isSome = true ∨ cid ∈ FIXED_CHANNEL_IDS

instance (chs : List (String × ChannelInfo)) (cid : String) :
    Decidable (knownChannel chs cid) :=
  inferInstanceAs (Decidable
    ((lookupKey chs cid).isSome = true ∨ cid ∈ FIXED_CHANNEL_IDS))

/-- A transport on which every call returns normally. -/
def alwaysOkTransport : Transport :=
  { copyMessage := fun _ _ _ => none, sendFooter := fun _ _ _ => none }

/-- A transport on which every `copy_message` raises. -/
def alwaysFailTransport : Transport :=
  { copyMessage := fun _ _ _ => some "Timed out", sendFooter := fun _ _ _ => none }

/-- `ConfigManager._cleanup_expired_jobs` (main.py:230-249): a stored job is
removed when its time fails to parse (`ValueError`) or lies strictly more
than 7 days before `now`. -/
def cleanup_expired_jobs (cfg : Config) (now : Int) : Config :=
  { cfg with scheduled_posts := cfg.scheduled_posts.filter fun p =>
      match p.2.time with
      | some jt => decide (now - jt ≤ SCHEDULE_EXPIRY_SECONDS)
      | none => false }

/-- One tick of `run_scheduled_jobs` (main.py:2217-2257): the expiry purge
runs first (main.py:2220), then the due jobs — stored jobs whose parseable
time satisfies `now >= job_time` (main.py:2227) — are selected from the
purged table and handed to `execute_post`.  The two `datetime.now()` calls
of one tick (main.py:233 and main.py:2221) are modelled as the same
instant. -/
def run_scheduled_jobs_tick (cfg : Config) (now : Int) :
    Config × List (String × ScheduledJob) :=
  let cfg2 := cleanup_expired_jobs cfg now
  (cfg2, cfg2.scheduled_posts.filter fun p =>
    match p.2.time with
    | some jt => decide (jt ≤ now)
    | none => false)

/-- The `.seconds` attribute of a non-negative Python `timedelta`: the
within-day seconds component, i.e. the total age in seconds modulo 86400 —
the `days` part is discarded. -/
def timedelta_seconds_component (age : Nat) : Nat := age % 86400

/-- The reload guard of `ConfigManager.get_config` (main.py:162-165):
`if not self._last_loaded or (datetime.now() - self._last_loaded).seconds >
60: self._load()`.  Returns true iff a reload from durable storage happens
on this call.  `last_loaded` is the epoch second of the last load (`none`
when never loaded); `now` the epoch second of the call. -/
def get_config_reloads (last_loaded : Option Nat) (now : Nat) : Bool :=
  match last_loaded with
  | none => true
  | some t => decide (timedelta_seconds_component (now - t) > 60)

/-- The `add_admin` branch of `handle_settings_input` (main.py:1984-2008):
an invalid id, the owner's id, or an already-listed id leaves the list
unchanged; otherwise the id is appended. -/
def add_admin (ownerId : String) (cfg : Config) (text : String) : Config :=
  if validate_user_id text = false then cfg
  else if text = ownerId ∨ text ∈ cfg.admins then cfg
  else { cfg with admins := cfg.admins ++ [text] }

/-- The `delete_admin` branch of `handle_settings_input` (main.py:2010-2041):
an invalid id, the owner's id, or an unlisted id leaves the list unchanged;
otherwise the first occurrence of the id is removed. -/
def delete_admin (ownerId : String) (cfg : Config) (text : String) : Config :=
  if validate_user_id text = false then cfg
  else if text = ownerId then cfg
  else if text ∉ cfg.admins then cfg
  else { cfg with admins := cfg.admins.erase text }

/-- The two operations of the source that touch the `admins` list — the only
writes to `config["admins"]` anywhere in main.py are the append at
main.py:2001 and the remove at main.py:2034. -/
inductive AdminOp where
  | add (text : String)
  | remove (text : String)
deriving Repr, DecidableEq

/-- Dispatch one admin-management operation. -/
def apply_admin_op (ownerId : String) (cfg : Config) : AdminOp → Config
  | .add t => add_admin ownerId cfg t
  | .remove t => delete_admin ownerId cfg t

/-- Apply a sequence of admin-management operations. -/
def apply_admin_ops (ownerId : String) (cfg : Config)
    (ops : List AdminOp) : Config :=
  ops.foldl (apply_admin_op ownerId) cfg

/-- The module-level global names bound in main.py (imports at lines 1-35,
constants at 50-101, classes/functions by their `class`, `def` and
`async def` statements, and the singleton at line 251). -/
def main_py_module_globals : List String :=
  ["logging", "json", "os", "re", "asyncio", "datetime", "timedelta",
   "Dict", "Set", "List", "Optional", "Any", "uuid4", "load_dotenv",
   "FileLock", "Update", "InlineKeyboardButton", "InlineKeyboardMarkup",
   "ReplyKeyboardMarkup", "ReplyKeyboardRemove", "InlineQueryResultArticle",
   "InputTextMessageContent", "CallbackQuery", "Message", "Bot",
   "ChatAction", "Application", "CommandHandler", "MessageHandler",
   "CallbackQueryHandler", "InlineQueryHandler", "ContextTypes", "filters",
   "ConversationHandler", "logger", "BOT_TOKEN", "OWNER_ID", "CONFIG_FILE",
   "CONFIG_LOCK", "MAX_BATCH_MESSAGES", "BATCH_EXPIRY_HOURS",
   "SCHEDULE_EXPIRY_DAYS", "POST_DELAY_SECONDS", "MAX_RETRIES",
   "MAX_FOOTER_LENGTH", "TEXT_FILE_SIZE_LIMIT", "TEXT_FILE_DELIMITER",
   "MAX_MESSAGE_LENGTH", "MAX_CAPTION_LENGTH", "EMOJI", "FIXED_CHANNELS",
   "ADMIN_MANAGEMENT", "CHANNEL_MANAGEMENT", "POST_SETTINGS",
   "SCHEDULE_BATCH", "ConfigManager", "config_manager",
   "sanitize_markdown", "style_text", "format_timestamp",
   "validate_channel_id", "validate_user_id", "validate_schedule_time",
   "validate_message_content", "check_schedule_conflict",
   "create_main_menu", "create_admin_management_keyboard",
   "create_channel_management_keyboard", "create_batch_management_keyboard",
   "create_schedule_management_keyboard", "create_post_settings_keyboard",
   "create_post_confirmation_keyboard", "build_channel_selection_keyboard",
   "create_schedule_list_keyboard", "start", "show_help", "cancel",
   "status", "handle_main_menu", "show_advanced_stats", "post_batch_menu",
   "add_to_batch", "show_batch", "clear_batch", "schedule_management_menu",
   "list_schedules", "view_schedule", "schedule_batch_menu",
   "schedule_batch_confirm", "preview_post", "execute_post", "list_admins",
   "show_admin_stats", "add_admin_prompt", "remove_admin_prompt",
   "list_channels", "show_channel_stats", "add_channel_prompt",
   "remove_channel_prompt", "post_settings", "set_delay_prompt",
   "set_retries_prompt", "set_footer_prompt", "toggle_notifications",
   "save_settings", "cancel_settings", "inline_search", "button_handler",
   "handle_settings_input", "handle_channel_input", "handle_schedule_input",
   "run_scheduled_jobs", "main"]

/-- The local names already bound when the success-branch reply of
`add_to_batch` executes (main.py:907-916). -/
def add_to_batch_success_locals : List String :=
  ["update", "context", "user_id", "batch", "msg_type"]

/-- The Python builtins referenced by `add_to_batch` (main.py:781-916). -/
def python_builtins_referenced : List String := ["len", "str", "range"]

/-- Python name resolution for a name occurring in a function body: local
scope, then module globals, then builtins. -/
def python_resolves (name : String) : Bool :=
  add_to_batch_success_locals.any (fun s => s = name) ||
  main_py_module_globals.any (fun s => s = name) ||
  python_builtins_referenced.any (fun s => s = name)

/-- The success branch of `add_to_batch` (main.py:907-916): the message id
is appended to the batch (main.py:907), then the confirmation reply is
formatted — an f-string that reads the global `MAX_MESSAGE_COUNT`
(main.py:912).  The second component records whether that name resolves
(false models Python raising `NameError` after the append). -/
def add_to_batch_success_step (batch : List Nat) (message_id : Nat) :
    List Nat × Bool :=
  (batch ++ [message_id], python_resolves "MAX_MESSAGE_COUNT")

/-- Characterisation of `check_schedule_conflict` as the existence of a
stored job within the 300-second window sharing a channel. -/
theorem check_schedule_conflict_iff (config : Config) (schedule_dt : Int)
    (channels : List String) :
    check_schedule_conflict config schedule_dt channels = true ↔
      ∃ p ∈ config.scheduled_posts, ∃ jt, p.2.time = some jt ∧
        (jt - schedule_dt).natAbs < 300 ∧ ∃ c ∈ p.2.channels, c ∈ channels := by
  simp only [check_schedule_conflict, List.any_eq_true]
  constructor
  · rintro ⟨p, hp, hmatch⟩
    refine ⟨p, hp, ?_⟩
    cases htime : p.2.time with
    | none => rw [htime] at hmatch; exact absurd hmatch (by simp)
    | some jt =>
        rw [htime] at hmatch
        simp only [Bool.and_eq_true, decide_eq_true_eq, List.any_eq_true]
          at hmatch
        exact ⟨jt, rfl, hmatch.1, hmatch.2⟩
  · rintro ⟨p, hp, jt, htime, hwin, c, hc, hcand⟩
    refine ⟨p, hp, ?_⟩
    rw [htime]
    simp only [Bool.and_eq_true, decide_eq_true_eq, List.any_eq_true]
    exact ⟨hwin, c, hc, hcand⟩

/-- Forward computation of a successful creation. -/
theorem handle_schedule_input_create_eq (cfg : Config) (now t : Int)
    (parsed : Option Int) (batch : List Nat) (chans : List String)
    (j uid : String)
    (hv : validate_schedule_time parsed now = some t)
    (hb : batch.isEmpty = false) (hc : chans.isEmpty = false)
    (hnoc : check_schedule_conflict cfg t chans = false) :
    handle_schedule_input cfg now parsed batch chans
        (.schedule_batch j) uid =
      (.created j, { cfg with scheduled_posts :=
          cfg.scheduled_posts ++ [(j, mkJob t batch chans uid)] }) := by
  simp only [handle_schedule_input, hv, hb, hc, hnoc, Bool.or_self,
    Bool.false_eq_true, if_false]

/-- Forward computation of a conflict rejection. -/
theorem handle_schedule_input_conflict_eq (cfg : Config) (now t : Int)
    (parsed : Option Int) (batch : List Nat) (chans : List String)
    (kind : ScheduleInputKind) (uid : String)
    (hv : validate_schedule_time parsed now = some t)
    (hb : batch.isEmpty = false) (hc : chans.isEmpty = false)
    (hconf : check_schedule_conflict cfg t chans = true) :
    handle_schedule_input cfg now parsed batch chans kind uid =
      (.conflictRejected, cfg) := by
  simp only [handle_schedule_input, hv, hb, hc, hconf, Bool.or_self,
    Bool.false_eq_true, if_false, if_true]

/-- C2: the claim asserts that rescheduling job "J" (due t=10000, channel
-1002504723776) to t=10060 — a time conflicting only with the job's own
prior time — must succeed.  The code has no self-exclusion:
`handle_schedule_input` (main.py:2164) passes the whole stored table to
`check_schedule_conflict` (main.py:321-331), which compares the candidate
against the job being rescheduled itself, so the reschedule is rejected as a
conflict. -/
theorem claim_C2_reschedule_rejected_on_self_conflict :
    handle_schedule_input selfConflictConfig 0 (some 10060) [1]
      ["-1002504723776"] (.reschedule_batch (some "J")) "7"
      = (.conflictRejected, selfConflictConfig) := by
  decide

/-- C3: (i) `check_schedule_conflict` returns true iff some stored job's
parseable due time is strictly within 300 seconds of the candidate time and
its channel set meets the candidate channels (purity is inherent to the
embedding: the function reads the configuration value and returns only a
`Bool`); (ii) when a first creation succeeds (returning the updated table
`cfg1`), a second creation within 300 seconds with an overlapping channel
set is rejected as a conflict; (iii) starting from an empty table, after a
first creation, a second request at least 300 seconds away or with a
disjoint channel set is accepted. -/
theorem claim_C3_conflict_rule :
    (∀ (config : Config) (t : Int) (chans : List String),
      check_schedule_conflict config t chans = true ↔
        ∃ p ∈ config.scheduled_posts, ∃ jt, p.2.time = some jt ∧
          (jt - t).natAbs < 300 ∧ ∃ c ∈ p.2.channels, c ∈ chans) ∧
    (∀ (cfg cfg1 : Config) (now1 t1 now2 t2 : Int)
        (parsed1 parsed2 : Option Int) (b1 b2 : List Nat)
        (chans1 chans2 : List String) (j1 j2 u1 u2 : String),
      validate_schedule_time parsed1 now1 = some t1 →
      b1.isEmpty = false → chans1.isEmpty = false →
      check_schedule_conflict cfg t1 chans1 = false →
      handle_schedule_input cfg now1 parsed1 b1 chans1
          (.schedule_batch j1) u1 = (.created j1, cfg1) →
      validate_schedule_time parsed2 now2 = some t2 →
      b2.isEmpty = false → chans2.isEmpty = false →
      (t1 - t2).natAbs < 300 → (∃ c ∈ chans1, c ∈ chans2) →
      handle_schedule_input cfg1 now2 parsed2 b2 chans2
          (.schedule_batch j2) u2 = (.conflictRejected, cfg1)) ∧
    (∀ (cfg cfg1 : Config) (now1 t1 now2 t2 : Int)
        (parsed1 parsed2 : Option Int) (b1 b2 : List Nat)
        (chans1 chans2 : List String) (j1 j2 u1 u2 : String),
      cfg.scheduled_posts = [] →
      validate_schedule_time parsed1 now1 = some t1 →
      b1.isEmpty = false → chans1.isEmpty = false →
      handle_schedule_input cfg now1 parsed1 b1 chans1
          (.schedule_batch j1) u1 = (.created j1, cfg1) →
      validate_schedule_time parsed2 now2 = some t2 →
      b2.isEmpty = false → chans2.isEmpty = false →
      (300 ≤ (t1 - t2).natAbs ∨ ∀ c ∈ chans1, c ∉ chans2) →
      (handle_schedule_input cfg1 now2 parsed2 b2 chans2
          (.schedule_batch j2) u2).1 = .created j2) := by
  refine ⟨check_schedule_conflict_iff, ?_, ?_⟩
  · intro cfg cfg1 now1 t1 now2 t2 parsed1 parsed2 b1 b2 chans1 chans2
      j1 j2 u1 u2 hv1 hb1 hc1 hnoc heq hv2 hb2 hc2 hwin hover
    rw [handle_schedule_input_create_eq cfg now1 t1 parsed1 b1 chans1 j1 u1
      hv1 hb1 hc1 hnoc] at heq
    injection heq with h1 h2
    subst h2
    have hconf : check_schedule_conflict
        { cfg with scheduled_posts :=
            cfg.scheduled_posts ++ [(j1, mkJob t1 b1 chans1 u1)] }
        t2 chans2 = true := by
      rw [check_schedule_conflict_iff]
      obtain ⟨c, hcmem, hcmem2⟩ := hover
      exact ⟨(j1, mkJob t1 b1 chans1 u1), by simp, t1, rfl, by omega,
        c, hcmem, hcmem2⟩
    exact handle_schedule_input_conflict_eq _ now2 t2 parsed2 b2 chans2 _ u2
      hv2 hb2 hc2 hconf
  · intro cfg cfg1 now1 t1 now2 t2 parsed1 parsed2 b1 b2 chans1 chans2
      j1 j2 u1 u2 hemp hv1 hb1 hc1 heq hv2 hb2 hc2 hfar
    have hnoc : check_schedule_conflict cfg t1 chans1 = false := by
      have h : ¬ check_schedule_conflict cfg t1 chans1 = true := by
        rw [check_schedule_conflict_iff]
        rintro ⟨p, hp, -⟩
        rw [hemp] at hp
        exact absurd hp (List.not_mem_nil p)
      exact Bool.eq_false_iff.mpr h
    rw [handle_schedule_input_create_eq cfg now1 t1 parsed1 b1 chans1 j1 u1
      hv1 hb1 hc1 hnoc] at heq
    injection heq with h1 h2
    subst h2
    have hnoc2 : check_schedule_conflict
        { cfg with scheduled_posts :=
            cfg.scheduled_posts ++ [(j1, mkJob t1 b1 chans1 u1)] }
        t2 chans2 = false := by
      have h : ¬ check_schedule_conflict
          { cfg with scheduled_posts :=
              cfg.scheduled_posts ++ [(j1, mkJob t1 b1 chans1 u1)] }
          t2 chans2 = true := by
        rw [check_schedule_conflict_iff]
        rintro ⟨p, hp, jt, hjt, hwin, c, hcmem, hcmem2⟩
        rw [hemp] at hp
        simp only [List.nil_append, List.mem_singleton] at hp
        subst hp
        simp only [mkJob] at hjt hcmem
        cases hjt
        rcases hfar with hfar | hfar
        · omega
        · exact hfar c hcmem hcmem2
      exact Bool.eq_false_iff.mpr h
    rw [handle_schedule_input_create_eq _ now2 t2 parsed2 b2 chans2 j2 u2
      hv2 hb2 hc2 hnoc2]

/-- Witness for C3: concrete instances — a first creation on the empty
default table succeeds; a second one 100 seconds away on the same channel is
rejected; a second one 1000 seconds away is accepted.  Also instantiates the
characterisation at the one-job table. -/
theorem claim_C3_conflict_rule_witness :
    (check_schedule_conflict selfConflictConfig 10060 ["-1002504723776"]
        = true) ∧
    (handle_schedule_input
        (handle_schedule_input (default_config "7") 0 (some 1000) [1]
          ["-1002504723776"] (.schedule_batch "J1") "7").2
        0 (some 1100) [2] ["-1002504723776"] (.schedule_batch "J2") "8"
      = (.conflictRejected,
          (handle_schedule_input (default_config "7") 0 (some 1000) [1]
            ["-1002504723776"] (.schedule_batch "J1") "7").2)) ∧
    (handle_schedule_input
        (handle_schedule_input (default_config "7") 0 (some 1000) [1]
          ["-1002504723776"] (.schedule_batch "J1") "7").2
        0 (some 2000) [2] ["-1002504723776"] (.schedule_batch "J2") "8").1
      = .created "J2" := by
  refine ⟨?_, ?_, ?_⟩
  · exact (claim_C3_conflict_rule.1 selfConflictConfig 10060
      ["-1002504723776"]).mpr
      ⟨("J", mkJob 10000 [1] ["-1002504723776"] "7"), by decide, 10000,
        rfl, by decide, "-1002504723776", by decide, by decide⟩
  · exact claim_C3_conflict_rule.2.1 (default_config "7")
      (handle_schedule_input (default_config "7") 0 (some 1000) [1]
        ["-1002504723776"] (.schedule_batch "J1") "7").2
      0 1000 0 1100 (some 1000) (some 1100) [1] [2]
      ["-1002504723776"] ["-1002504723776"] "J1" "J2" "7" "8"
      (by decide) (by decide) (by decide) (by decide) (by decide)
      (by decide) (by decide) (by decide) (by decide)
      ⟨"-1002504723776", by decide, by decide⟩
  · exact claim_C3_conflict_rule.2.2 (default_config "7")
      (handle_schedule_input (default_config "7") 0 (some 1000) [1]
        ["-1002504723776"] (.schedule_batch "J1") "7").2
      0 1000 0 2000 (some 1000) (some 2000) [1] [2]
      ["-1002504723776"] ["-1002504723776"] "J1" "J2" "7" "8"
      rfl (by decide) (by decide) (by decide) (by decide) (by decide)
      (by decide) (by decide) (Or.inl (by decide))

/-- Appending a failure entry grows the failure total by exactly one. -/
theorem totalFailures_appendFail (fp : List (String × List FailEntry))
    (ch : String) (e : FailEntry) :
    totalFailures (appendFail fp ch e) = totalFailures fp + 1 := by
  induction fp with
  | nil => simp [appendFail, totalFailures]
  | cons p rest ih =>
      obtain ⟨c, es⟩ := p
      by_cases h : c = ch
      · simp only [appendFail, if_pos h, totalFailures, List.map_cons,
          List.sum_cons, List.length_append, List.length_singleton]
        omega
      · simp only [appendFail, if_neg h, totalFailures, List.map_cons,
          List.sum_cons] at *
        omega

/-- A cell that ran at least one attempt and did not succeed carries a
recorded failure entry. -/
theorem runCellAux_failRecord_isSome (t : Transport) (footer : String)
    (msg : Nat) (ch : String) :
    ∀ (n k : Nat), (runCellAux t footer msg ch k (n + 1)).success = false →
      (runCellAux t footer msg ch k (n + 1)).failRecord.isSome = true := by
  intro n
  induction n with
  | zero =>
      intro k h
      rw [runCellAux] at h ⊢
      cases hA : attemptErr t footer msg ch k with
      | none => simp [hA] at h
      | some e => simp [hA]
  | succ m ih =>
      intro k h
      rw [runCellAux] at h ⊢
      cases hA : attemptErr t footer msg ch k with
      | none => simp [hA] at h
      | some e =>
          simp only [hA] at h ⊢
          exact ih (k + 1) h

/-- `runCell` version of the previous lemma. -/
theorem runCell_failRecord_isSome (t : Transport) (footer : String)
    (max_retries : Nat) (msg : Nat) (ch : String)
    (h : (runCell t footer max_retries msg ch).success = false) :
    (runCell t footer max_retries msg ch).failRecord.isSome = true :=
  runCellAux_failRecord_isSome t footer msg ch max_retries 0 h

/-- Each processed cell adds exactly one to the run's success-plus-failure
total: the cell ends as a success, an exhausted-retries failure, or a
malformed-channel failure. -/
theorem processCell_measure (t : Transport) (footer : String)
    (max_retries : Nat) (st : RunState) (cell : Nat × String) :
    (processCell t footer max_retries st cell).success_count +
      totalFailures (processCell t footer max_retries st cell).failed_posts
      = st.success_count + totalFailures st.failed_posts + 1 := by
  rw [processCell]
  by_cases hv : validate_channel_id cell.2 = false
  · rw [if_pos hv]
    simp only [totalFailures_appendFail]
    omega
  · rw [if_neg hv]
    by_cases hs : (runCell t footer max_retries cell.1 cell.2).success = true
    · simp only [hs, if_true]
      omega
    · have hs2 : (runCell t footer max_retries cell.1 cell.2).success
          = false := Bool.eq_false_iff.mpr hs
      have hrec := runCell_failRecord_isSome t footer max_retries cell.1
        cell.2 hs2
      cases hfe : (runCell t footer max_retries cell.1 cell.2).failRecord with
      | none => rw [hfe] at hrec; simp at hrec
      | some fe =>
          simp only [hs2, Bool.false_eq_true, if_false, hfe,
            totalFailures_appendFail]
          omega

/-- Folding the cell loop adds the number of cells to the
success-plus-failure total. -/
theorem foldl_processCell_measure (t : Transport) (footer : String)
    (max_retries : Nat) (cells : List (Nat × String)) :
    ∀ st : RunState,
      (cells.foldl (processCell t footer max_retries) st).success_count +
        totalFailures
          (cells.foldl (processCell t footer max_retries) st).failed_posts
        = st.success_count + totalFailures st.failed_posts + cells.length := by
  induction cells with
  | nil => intro st; simp
  | cons cell rest ih =>
      intro st
      simp only [List.foldl_cons, List.length_cons]
      rw [ih (processCell t footer max_retries st cell),
        processCell_measure]
      omega

/-- The number of cells is the product of the batch and channel counts. -/
theorem cellList_length (batch_ids : List Nat)
    (selected_channels : List String) :
    (cellList batch_ids selected_channels).length
      = batch_ids.length * selected_channels.length := by
  induction batch_ids with
  | nil => simp [cellList]
  | cons m rest ih =>
      simp only [cellList, List.flatMap_cons, List.length_append,
        List.length_map, List.length_cons] at *
      rw [ih]
      ring

/-- C1: for every completed run over a non-empty message list and non-empty
channel list, `succeeded + sum(len(failures[c]))` equals
`len(M) * len(C)` — every cell is counted exactly once as a success or as a
recorded failure, malformed-channel cells included. -/
theorem claim_C1_run_accounting (t : Transport) (footer : String)
    (max_retries : Nat) (batch_ids : List Nat)
    (selected_channels : List String)
    (hb : batch_ids ≠ []) (hc : selected_channels ≠ []) :
    (execute_post_run t footer max_retries batch_ids
        selected_channels).success_count +
      totalFailures (execute_post_run t footer max_retries batch_ids
        selected_channels).failed_posts
      = batch_ids.length * selected_channels.length := by
  rw [execute_post_run, foldl_processCell_measure, cellList_length]
  simp [totalFailures]

/-- Witness for C1: a 2-message run against one well-formed channel that
fails every delivery and one malformed channel id — 0 successes and 4
recorded failures cover the 2 × 2 grid. -/
theorem claim_C1_run_accounting_witness :
    (execute_post_run alwaysFailTransport "" 1 [1, 2]
        ["-1002504723776", "bad"]).success_count +
      totalFailures (execute_post_run alwaysFailTransport "" 1 [1, 2]
        ["-1002504723776", "bad"]).failed_posts
      = 2 * 2 := by
  exact claim_C1_run_accounting alwaysFailTransport "" 1 [1, 2]
    ["-1002504723776", "bad"] (by decide) (by decide)

/-- The retry loop runs at most as many attempts as it has iterations. -/
theorem runCellAux_attempts_le (t : Transport) (footer : String) (msg : Nat)
    (ch : String) :
    ∀ (n k : Nat), (runCellAux t footer msg ch k n).attemptsMade ≤ n := by
  intro n
  induction n with
  | zero => intro k; rw [runCellAux]
  | succ m ih =>
      intro k
      cases m with
      | zero =>
          rw [runCellAux]
          cases attemptErr t footer msg ch k <;> simp
      | succ m2 =>
          rw [runCellAux]
          cases attemptErr t footer msg ch k with
          | none => simp
          | some e =>
              simp only []
              have := ih (k + 1)
              omega

/-- A retry loop with at least one iteration makes at least one attempt. -/
theorem runCellAux_attempts_pos (t : Transport) (footer : String) (msg : Nat)
    (ch : String) :
    ∀ (n k : Nat), 1 ≤ (runCellAux t footer msg ch k (n + 1)).attemptsMade := by
  intro n
  induction n with
  | zero =>
      intro k
      rw [runCellAux]
      cases attemptErr t footer msg ch k <;> simp
  | succ m ih =>
      intro k
      rw [runCellAux]
      cases attemptErr t footer msg ch k with
      | none => simp
      | some e => simp only []; omega

/-- The event trace of a cell has exactly the shape the retry policy
prescribes: consecutive attempts are separated by exactly one one-second
pause. -/
theorem runCellAux_events_shape (t : Transport) (footer : String)
    (msg : Nat) (ch : String) :
    ∀ (n k : Nat),
      (runCellAux t footer msg ch k (n + 1)).events
        = cellTraceShape k (runCellAux t footer msg ch k (n + 1)).attemptsMade
            (runCellAux t footer msg ch k (n + 1)).success := by
  intro n
  induction n with
  | zero =>
      intro k
      rw [runCellAux]
      cases attemptErr t footer msg ch k with
      | none => simp [cellTraceShape]
      | some e => simp [cellTraceShape]
  | succ m ih =>
      intro k
      rw [runCellAux]
      cases attemptErr t footer msg ch k with
      | none => simp [cellTraceShape]
      | some e =>
          simp only []
          obtain ⟨a, ha⟩ : ∃ a,
              (runCellAux t footer msg ch (k + 1) (m + 1)).attemptsMade
                = a + 1 := by
            have := runCellAux_attempts_pos t footer msg ch m (k + 1)
            exact ⟨(runCellAux t footer msg ch (k + 1) (m + 1)).attemptsMade
              - 1, by omega⟩
          rw [ha, cellTraceShape, ← ha, ih (k + 1)]

/-- A cell that exhausts its retries ran all `n + 1` attempts and recorded
the truncated error text of the final attempt together with its message
id. -/
theorem runCellAux_exhausted (t : Transport) (footer : String) (msg : Nat)
    (ch : String) :
    ∀ (n k : Nat), (runCellAux t footer msg ch k (n + 1)).success = false →
      ∃ e, attemptErr t footer msg ch (k + n) = some e ∧
        (runCellAux t footer msg ch k (n + 1)).failRecord
          = some { error := e.take 500, message_id := msg } ∧
        (runCellAux t footer msg ch k (n + 1)).attemptsMade = n + 1 := by
  intro n
  induction n with
  | zero =>
      intro k h
      rw [runCellAux] at h ⊢
      cases hA : attemptErr t footer msg ch k with
      | none => simp [hA] at h
      | some e => exact ⟨e, by rw [Nat.add_zero]; exact hA, by simp [hA], by simp [hA]⟩
  | succ m ih =>
      intro k h
      rw [runCellAux] at h ⊢
      cases hA : attemptErr t footer msg ch k with
      | none => simp [hA] at h
      | some e =>
          simp only [hA] at h ⊢
          obtain ⟨e2, he2, hfr, hat⟩ := ih (k + 1) h
          refine ⟨e2, ?_, hfr, by omega⟩
          have harith : k + 1 + m = k + (m + 1) := by omega
          rw [← harith]
          exact he2

/-- On a transport whose every `copy_message` raises, no cell ever
succeeds. -/
theorem runCellAux_alwaysFail (footer : String) (msg : Nat) (ch : String) :
    ∀ (n k : Nat),
      (runCellAux alwaysFailTransport footer msg ch k n).success = false := by
  intro n
  induction n with
  | zero => intro k; rw [runCellAux]
  | succ m ih =>
      intro k
      cases m with
      | zero => rw [runCellAux]; rfl
      | succ m2 =>
          rw [runCellAux]
          have hA : attemptErr alwaysFailTransport footer msg ch k
              = some "Timed out" := rfl
          simp only [hA]
          exact ih (k + 1)

/-- On the always-failing transport the success counter never moves. -/
theorem foldl_processCell_alwaysFail_success (footer : String)
    (max_retries : Nat) (cells : List (Nat × String)) :
    ∀ st : RunState,
      (cells.foldl (processCell alwaysFailTransport footer max_retries)
          st).success_count = st.success_count := by
  induction cells with
  | nil => intro st; rfl
  | cons cell rest ih =>
      intro st
      rw [List.foldl_cons, ih]
      rw [processCell]
      by_cases hv : validate_channel_id cell.2 = false
      · rw [if_pos hv]
      · rw [if_neg hv]
        have hs : (runCell alwaysFailTransport footer max_retries cell.1
            cell.2).success = false :=
          runCellAux_alwaysFail footer cell.1 cell.2 (max_retries + 1) 0
        simp only [hs, Bool.false_eq_true, if_false]
        cases (runCell alwaysFailTransport footer max_retries cell.1
            cell.2).failRecord <;> rfl

/-- C5: the retry policy of `execute_post` — (i) a cell runs at most
`max_retries + 1` attempts; (ii) its event trace separates consecutive
attempts by exactly one flat one-second pause; (iii) a cell that exhausts
all attempts ran exactly `max_retries + 1` of them and recorded, against its
channel, the final attempt's error text truncated to 500 characters with the
message id; (iv) failures never abort the run: even on a transport failing
every delivery, the run completes with zero successes and all
`|M| * |C|` cells recorded in the failure map. -/
theorem claim_C5_retry_policy :
    (∀ (t : Transport) (footer : String) (mr m : Nat) (ch : String),
      (runCell t footer mr m ch).attemptsMade ≤ mr + 1) ∧
    (∀ (t : Transport) (footer : String) (mr m : Nat) (ch : String),
      (runCell t footer mr m ch).events
        = cellTraceShape 0 (runCell t footer mr m ch).attemptsMade
            (runCell t footer mr m ch).success) ∧
    (∀ (t : Transport) (footer : String) (mr m : Nat) (ch : String),
      (runCell t footer mr m ch).success = false →
      ∃ e, attemptErr t footer m ch mr = some e ∧
        (runCell t footer mr m ch).failRecord
          = some { error := e.take 500, message_id := m } ∧
        (runCell t footer mr m ch).attemptsMade = mr + 1) ∧
    (∀ (footer : String) (mr : Nat) (batch_ids : List Nat)
        (selected_channels : List String),
      (execute_post_run alwaysFailTransport footer mr batch_ids
          selected_channels).success_count = 0 ∧
      totalFailures (execute_post_run alwaysFailTransport footer mr
          batch_ids selected_channels).failed_posts
        = batch_ids.length * selected_channels.length) := by
  refine ⟨?_, ?_, ?_, ?_⟩
  · intro t footer mr m ch
    exact runCellAux_attempts_le t footer m ch (mr + 1) 0
  · intro t footer mr m ch
    exact runCellAux_events_shape t footer m ch mr 0
  · intro t footer mr m ch h
    have := runCellAux_exhausted t footer m ch mr 0 h
    simpa using this
  · intro footer mr batch_ids selected_channels
    have hz := foldl_processCell_alwaysFail_success footer mr
      (cellList batch_ids selected_channels)
      { success_count := 0, failed_posts := [], completed_operations := 0 }
    have hm := foldl_processCell_measure alwaysFailTransport footer mr
      (cellList batch_ids selected_channels)
      { success_count := 0, failed_posts := [], completed_operations := 0 }
    rw [cellList_length] at hm
    dsimp only at hz hm
    have h0 : totalFailures [] = 0 := rfl
    rw [h0] at hm
    constructor
    · exact hz
    · rw [execute_post_run]
      omega

/-- Witness for C5: with `max_retries = 1` on the always-failing transport,
cell (5, "c") makes both attempts, never succeeds, and records the truncated
"Timed out" error; a one-cell run on that transport ends with zero
successes. -/
theorem claim_C5_retry_policy_witness :
    (∃ e, attemptErr alwaysFailTransport "" 5 "c" 1 = some e ∧
      (runCell alwaysFailTransport "" 1 5 "c").failRecord
        = some { error := e.take 500, message_id := 5 } ∧
      (runCell alwaysFailTransport "" 1 5 "c").attemptsMade = 1 + 1) ∧
    (runCell alwaysFailTransport "" 1 5 "c").attemptsMade ≤ 1 + 1 ∧
    (execute_post_run alwaysFailTransport "" 0 [1]
        ["-1002504723776"]).success_count = 0 :=
  ⟨claim_C5_retry_policy.2.2.1 alwaysFailTransport "" 1 5 "c" (by decide),
   claim_C5_retry_policy.1 alwaysFailTransport "" 1 5 "c",
   (claim_C5_retry_policy.2.2.2 "" 0 [1] ["-1002504723776"]).1⟩

/-- A cell delivers the footer exactly once when it succeeds with a
non-empty footer configured, and never otherwise. -/
theorem runCellAux_footerCount (t : Transport) (footer : String) (msg : Nat)
    (ch : String) :
    ∀ (n k : Nat),
      (runCellAux t footer msg ch k n).footerCount
        = if (runCellAux t footer msg ch k n).success = true ∧ footer ≠ ""
          then 1 else 0 := by
  intro n
  induction n with
  | zero => intro k; rw [runCellAux]; simp
  | succ m ih =>
      intro k
      cases m with
      | zero =>
          rw [runCellAux]
          cases attemptErr t footer msg ch k with
          | none => by_cases hf : footer = "" <;> simp [hf]
          | some e => simp
      | succ m2 =>
          rw [runCellAux]
          cases attemptErr t footer msg ch k with
          | none => by_cases hf : footer = "" <;> simp [hf]
          | some e => simp only []; exact ih (k + 1)

/-- C7: with a non-empty footer configured, every successful cell delivers
the footer — the extra `bot.send_message` at main.py:1262-1268 tied to the
same channel — exactly once; with the footer unset a cell delivers no footer
at all. -/
theorem claim_C7_footer_delivery :
    (∀ (t : Transport) (footer : String) (mr m : Nat) (ch : String),
      footer ≠ "" → (runCell t footer mr m ch).success = true →
      (runCell t footer mr m ch).footerCount = 1) ∧
    (∀ (t : Transport) (mr m : Nat) (ch : String),
      (runCell t "" mr m ch).footerCount = 0) := by
  constructor
  · intro t footer mr m ch hf hs
    rw [runCell] at hs ⊢
    rw [runCellAux_footerCount t footer m ch (mr + 1) 0, if_pos ⟨hs, hf⟩]
  · intro t mr m ch
    rw [runCell, runCellAux_footerCount t "" m ch (mr + 1) 0]
    simp

/-- Witness for C7: on the always-succeeding transport with footer "visit",
the cell delivers the footer exactly once; with the footer unset it delivers
none. -/
theorem claim_C7_footer_delivery_witness :
    (runCell alwaysOkTransport "visit" 0 7 "c").footerCount = 1 ∧
    (runCell alwaysOkTransport "" 0 7 "c").footerCount = 0 :=
  ⟨claim_C7_footer_delivery.1 alwaysOkTransport "visit" 0 7 "c" (by decide)
      (by decide),
   claim_C7_footer_delivery.2 alwaysOkTransport 0 7 "c"⟩

/-- C6: a job whose parseable due time lies strictly more than 7 days before
the tick's current time is removed by the purge — which runs before due-job
selection (main.py:2219-2222) — and therefore never appears in the due list
handed to the dispatch engine. -/
theorem claim_C6_expired_jobs_purged (cfg : Config) (now : Int)
    (jid : String) (job : ScheduledJob) (jt : Int)
    (ht : job.time = some jt) (hexp : SCHEDULE_EXPIRY_SECONDS < now - jt) :
    (jid, job) ∉ (run_scheduled_jobs_tick cfg now).1.scheduled_posts ∧
    (jid, job) ∉ (run_scheduled_jobs_tick cfg now).2 := by
  have hclean : (jid, job) ∉ (cleanup_expired_jobs cfg now).scheduled_posts := by
    intro hmem
    rw [cleanup_expired_jobs] at hmem
    simp only [List.mem_filter] at hmem
    have hcond := hmem.2
    simp only [ht, decide_eq_true_eq] at hcond
    omega
  constructor
  · exact hclean
  · show (jid, job) ∉
      ((cleanup_expired_jobs cfg now).scheduled_posts).filter _
    intro hmem
    exact hclean (List.mem_of_mem_filter hmem)

/-- Witness for C6: the job due at t = 10000 is gone from both the purged
table and the due list of a tick at t = 700000 (8.1 days later). -/
theorem claim_C6_expired_jobs_purged_witness :
    ("J", mkJob 10000 [1] ["-1002504723776"] "7") ∉
      (run_scheduled_jobs_tick selfConflictConfig 700000).1.scheduled_posts ∧
    ("J", mkJob 10000 [1] ["-1002504723776"] "7") ∉
      (run_scheduled_jobs_tick selfConflictConfig 700000).2 :=
  claim_C6_expired_jobs_purged selfConflictConfig 700000 "J"
    (mkJob 10000 [1] ["-1002504723776"] "7") 10000 rfl (by decide)

/-- C8: the claim asserts a reload for *every* cache age above 60 seconds.
The guard (main.py:163) reads `timedelta.seconds` — the within-day seconds
component, not the total age — so a cache exactly one day old (86400 s,
far above 60 s) computes `.seconds == 0` and is *not* reloaded.  The code
contradicts the spec's "older than 60 seconds elapsed wall-clock"; the
intended expression is `.total_seconds()`. -/
theorem claim_C8_day_old_cache_not_reloaded :
    get_config_reloads (some 0) 86400 = false ∧ 60 < 86400 - 0 := by
  decide

/-- Every single admin-management operation preserves the owner's
membership in the admin list. -/
theorem apply_admin_op_preserves_owner (ownerId : String) (cfg : Config)
    (op : AdminOp) (h : ownerId ∈ cfg.admins) :
    ownerId ∈ (apply_admin_op ownerId cfg op).admins := by
  cases op with
  | add t =>
      rw [apply_admin_op, add_admin]
      split_ifs with h1 h2
      · exact h
      · exact h
      · exact List.mem_append_left _ h
  | remove t =>
      rw [apply_admin_op, delete_admin]
      split_ifs with h1 h2 h3
      · exact h
      · exact h
      · exact (List.mem_erase_of_ne fun he => h2 he.symm).mpr h
      · exact h

/-- C9: starting from the default document — which seeds the owner as the
sole admin (main.py:133) — any sequence of add-admin and remove-admin
operations leaves the owner in the admin list: the remove branch refuses the
owner's id (main.py:2019-2025), and the append at main.py:2001 and remove at
main.py:2034 are the only writes to `config["admins"]` in the source. -/
theorem claim_C9_owner_always_admin (ownerId : String) (ops : List AdminOp) :
    ownerId ∈ (apply_admin_ops ownerId (default_config ownerId) ops).admins := by
  have hstep : ∀ (l : List AdminOp) (cfg : Config), ownerId ∈ cfg.admins →
      ownerId ∈ (l.foldl (apply_admin_op ownerId) cfg).admins := by
    intro l
    induction l with
    | nil => intro cfg h; exact h
    | cons op rest ih =>
        intro cfg h
        exact ih _ (apply_admin_op_preserves_owner ownerId cfg op h)
  exact hstep ops (default_config ownerId) (by simp [default_config])

/-- C10: the claim asserts the success branch of `add_to_batch` completes
without unhandled errors.  In fact, after appending the message id
(main.py:907) the confirmation reply (main.py:912) reads the global
`MAX_MESSAGE_COUNT`, which is bound nowhere in the module — the defined
constant is `MAX_BATCH_MESSAGES` (main.py:64) — so the branch appends and
then raises `NameError`. -/
theorem claim_C10_add_to_batch_name_error :
    add_to_batch_success_step [5] 42 = ([5, 42], false) ∧
    python_resolves "MAX_BATCH_MESSAGES" = true := by
  decide

/-- Lookup through a keywise update map. -/
theorem lookupKey_map_update {β : Type} (l : List (String × β))
    (cid c : String) (f : β → β) :
    lookupKey (l.map fun p => if p.1 = cid then (p.1, f p.2) else p) c
      = if c = cid then (lookupKey l c).map f else lookupKey l c := by
  induction l with
  | nil => by_cases h : c = cid <;> simp [lookupKey, h]
  | cons p rest ih =>
      obtain ⟨k, v⟩ := p
      by_cases hk : k = cid
      · subst hk
        by_cases hc : k = c
        · subst hc
          simp [lookupKey]
        · simp [lookupKey, hc, ih]
      · by_cases hc : k = c
        · subst hc
          simp [lookupKey, hk]
        · simp [lookupKey, hk, hc, ih]

/-- Appending an entry is invisible while the key is absent in the prefix
only if the appended key also differs; this gives the exact value. -/
theorem lookupKey_append_of_none {β : Type} (l : List (String × β))
    (k2 c : String) (v : β) (h : lookupKey l c = none) :
    lookupKey (l ++ [(k2, v)]) c = if k2 = c then some v else none := by
  induction l with
  | nil => simp [lookupKey]
  | cons p rest ih =>
      rw [lookupKey] at h
      by_cases hp : p.1 = c
      · rw [if_pos hp] at h
        exact absurd h (by simp)
      · rw [if_neg hp] at h
        rw [List.cons_append, lookupKey, if_neg hp]
        exact ih h

/-- Appending an entry never shadows a key already present. -/
theorem lookupKey_append_of_some {β : Type} (l : List (String × β))
    (k2 c : String) (v w : β) (h : lookupKey l c = some w) :
    lookupKey (l ++ [(k2, v)]) c = some w := by
  induction l with
  | nil => rw [lookupKey] at h; exact absurd h (by simp)
  | cons p rest ih =>
      rw [lookupKey] at h
      by_cases hp : p.1 = c
      · rw [if_pos hp] at h
        rw [List.cons_append, lookupKey, if_pos hp]
        exact h
      · rw [if_neg hp] at h
        rw [List.cons_append, lookupKey, if_neg hp]
        exact ih h

/-- Equal lookups give equal default-0 post counts. -/
theorem postCountIn_congr {l1 l2 : List (String × ChannelInfo)} {c : String}
    (h : lookupKey l1 c = lookupKey l2 c) :
    postCountIn l1 c = postCountIn l2 c := by
  rw [postCountIn, postCountIn, h]

/-- The per-channel step leaves every other key's lookup unchanged. -/
theorem update_stats_channel_step_lookup_ne
    (chs : List (String × ChannelInfo)) (cid c : String) (h : c ≠ cid) :
    lookupKey (update_stats_channel_step chs cid) c = lookupKey chs c := by
  rw [update_stats_channel_step]
  split_ifs with h1 h2
  · rfl
  · rw [lookupKey_map_update _ _ _ bumpPostCount, if_neg h]
    cases hl : lookupKey chs c with
    | some w => rw [lookupKey_append_of_some _ _ _ _ _ hl]
    | none =>
        rw [lookupKey_append_of_none _ _ _ _ hl,
          if_neg (fun he => h he.symm)]
  · rw [lookupKey_map_update _ _ _ bumpPostCount, if_neg h]

/-- The per-channel step on a stored-or-fixed id bumps its count by one. -/
theorem update_stats_channel_step_bump (chs : List (String × ChannelInfo))
    (cid : String) (h : knownChannel chs cid) :
    postCountIn (update_stats_channel_step chs cid) cid
      = postCountIn chs cid + 1 := by
  rw [update_stats_channel_step]
  have hskip : ((lookupKey chs cid).isNone
      && decide (cid ∉ FIXED_CHANNEL_IDS)) = false := by
    rcases h with h | h
    · cases hl : lookupKey chs cid with
      | some w => rfl
      | none => rw [hl] at h; simp at h
    · simp [h]
  simp only [hskip, Bool.false_eq_true, if_false]
  cases hl : lookupKey chs cid with
  | some info =>
      simp only [hl, Option.isNone_some, Bool.false_eq_true, if_false]
      rw [postCountIn, lookupKey_map_update _ _ _ bumpPostCount, if_pos rfl,
        hl, postCountIn, hl]
      rfl
  | none =>
      simp only [hl, Option.isNone_none, if_true]
      rw [postCountIn, lookupKey_map_update _ _ _ bumpPostCount, if_pos rfl,
        lookupKey_append_of_none _ _ _ _ hl, if_pos rfl, postCountIn, hl]
      rfl

/-- The per-channel step on an unknown id is the identity. -/
theorem update_stats_channel_step_unknown
    (chs : List (String × ChannelInfo)) (cid : String)
    (h : ¬ knownChannel chs cid) :
    update_stats_channel_step chs cid = chs := by
  rw [update_stats_channel_step, if_pos]
  rw [knownChannel, not_or] at h
  obtain ⟨h1, h2⟩ := h
  rw [Bool.and_eq_true, decide_eq_true_eq]
  constructor
  · cases hl : lookupKey chs cid with
    | some w => rw [hl] at h1; simp at h1
    | none => rfl
  · exact h2

/-- Folding the channel loop over ids not containing `c` leaves the lookup
of `c` unchanged. -/
theorem foldl_step_lookup_not_mem (cs : List String) :
    ∀ (chs : List (String × ChannelInfo)) (c : String), c ∉ cs →
      lookupKey (cs.foldl update_stats_channel_step chs) c
        = lookupKey chs c := by
  induction cs with
  | nil => intro chs c _; rfl
  | cons c2 rest ih =>
      intro chs c h
      rw [List.foldl_cons,
        ih _ _ (fun hm => h (List.mem_cons_of_mem _ hm)),
        update_stats_channel_step_lookup_ne _ _ _
          (List.ne_of_not_mem_cons h)]

/-- Folding the channel loop over a duplicate-free list containing the
known id `c` bumps its count by exactly one. -/
theorem foldl_step_bump (cs : List String) :
    ∀ (chs : List (String × ChannelInfo)) (c : String), cs.Nodup →
      c ∈ cs → knownChannel chs c →
      postCountIn (cs.foldl update_stats_channel_step chs) c
        = postCountIn chs c + 1 := by
  induction cs with
  | nil => intro chs c _ hmem _; cases hmem
  | cons c2 rest ih =>
      intro chs c hnd hmem hknown
      rw [List.foldl_cons]
      by_cases he : c = c2
      · subst he
        have hnr : c ∉ rest := (List.nodup_cons.mp hnd).1
        rw [postCountIn_congr (foldl_step_lookup_not_mem rest _ c hnr),
          update_stats_channel_step_bump chs c hknown]
      · have hmem2 : c ∈ rest := by
          rcases List.mem_cons.mp hmem with h | h
          · exact absurd h he
          · exact h
        have hlp := update_stats_channel_step_lookup_ne chs c2 c he
        have hknown2 : knownChannel (update_stats_channel_step chs c2) c := by
          rcases hknown with h | h
          · left; rw [hlp]; exact h
          · right; exact h
        rw [ih _ _ (List.nodup_cons.mp hnd).2 hmem2 hknown2,
          postCountIn_congr hlp]

/-- Folding the channel loop never touches the lookup of an id that is
neither stored nor fixed. -/
theorem foldl_step_unknown (cs : List String) :
    ∀ (chs : List (String × ChannelInfo)) (c : String),
      ¬ knownChannel chs c →
      lookupKey (cs.foldl update_stats_channel_step chs) c
        = lookupKey chs c := by
  induction cs with
  | nil => intro chs c _; rfl
  | cons c2 rest ih =>
      intro chs c h
      rw [List.foldl_cons]
      by_cases he : c = c2
      · subst he
        rw [update_stats_channel_step_unknown chs c h, ih chs c h]
      · have hlp := update_stats_channel_step_lookup_ne chs c2 c he
        have h2 : ¬ knownChannel (update_stats_channel_step chs c2) c := by
          intro hk
          apply h
          rcases hk with hk | hk
          · rw [hlp] at hk; left; exact hk
          · right; exact hk
        rw [ih _ _ h2, hlp]

/-- The admin step adds `posts` to the acting admin's counter. -/
theorem adminPostsIn_update (stats : List (String × AdminStat))
    (a : String) (posts : Nat) :
    adminPostsIn (update_admin_stats stats a posts) a
      = adminPostsIn stats a + posts := by
  rw [update_admin_stats]
  cases hl : lookupKey stats a with
  | some s =>
      rw [adminPostsIn, lookupKey_map_update _ _ _ (bumpAdminPosts posts),
        if_pos rfl, hl, adminPostsIn, hl]
      rfl
  | none =>
      rw [adminPostsIn, lookupKey_append_of_none _ _ _ _ hl, if_pos rfl,
        adminPostsIn, hl]
      simp

/-- C4 counterexample: a run of 2 messages to the single fixed channel on
an always-succeeding transport yields 2 successful cells on that channel,
yet `update_stats` raises the channel's `post_count` from 0 to 1, not to 2 —
the per-channel counter moves by 1 per run, not by 1 per successful cell as
the claim states. -/
theorem claim_C4_counterexample :
    (execute_post_run alwaysOkTransport "" 0 [1, 2]
        ["-1002504723776"]).success_count = 2 ∧
    successCellsOn alwaysOkTransport "" 0 [1, 2] "-1002504723776" = 2 ∧
    channelPostCount (default_config "7") "-1002504723776" = 0 ∧
    channelPostCount
      (execute_post_update_stats (default_config "7")
        (execute_post_run alwaysOkTransport "" 0 [1, 2] ["-1002504723776"])
        ["-1002504723776"] "7") "-1002504723776" = 1 ∧
    ¬ (channelPostCount
        (execute_post_update_stats (default_config "7")
          (execute_post_run alwaysOkTransport "" 0 [1, 2]
            ["-1002504723776"]) ["-1002504723776"] "7") "-1002504723776"
      = channelPostCount (default_config "7") "-1002504723776"
        + successCellsOn alwaysOkTransport "" 0 [1, 2] "-1002504723776") := by
  decide

/-- C4 (amended): on completion `update_stats` adds the succeeded count to
the aggregate post counter, 1 to the batch counter, and the succeeded count
to the acting admin's counter; each *selected* channel that is stored or
fixed has its per-channel counter increased by exactly 1 per run (not per
successful cell), unknown ids and unselected channels are untouched. -/
theorem claim_C4_counter_updates (cfg : Config) (posts : Nat)
    (C : List String) (a : String)
    (ha : ¬ a = "") (hC : C.isEmpty = false) (hnd : C.Nodup) :
    (update_stats cfg posts 1 C a).stats_posts = cfg.stats_posts + posts ∧
    (update_stats cfg posts 1 C a).stats_batches = cfg.stats_batches + 1 ∧
    adminPostCount (update_stats cfg posts 1 C a) a
      = adminPostCount cfg a + posts ∧
    (∀ c ∈ C, knownChannel cfg.channels c →
      channelPostCount (update_stats cfg posts 1 C a) c
        = channelPostCount cfg c + 1) ∧
    (∀ c ∈ C, ¬ knownChannel cfg.channels c →
      channelPostCount (update_stats cfg posts 1 C a) c
        = channelPostCount cfg c) ∧
    (∀ c, c ∉ C →
      channelPostCount (update_stats cfg posts 1 C a) c
        = channelPostCount cfg c) := by
  have hu : update_stats cfg posts 1 C a =
      { admins := cfg.admins,
        channels := C.foldl update_stats_channel_step cfg.channels,
        stats_posts := cfg.stats_posts + posts,
        stats_batches := cfg.stats_batches + 1,
        admin_stats := update_admin_stats cfg.admin_stats a posts,
        scheduled_posts := cfg.scheduled_posts } := by
    rw [update_stats]
    simp only [hC, Bool.false_eq_true, if_false, if_neg ha]
  rw [hu]
  refine ⟨rfl, rfl, ?_, ?_, ?_, ?_⟩
  · exact adminPostsIn_update cfg.admin_stats a posts
  · intro c hc hknown
    exact foldl_step_bump C cfg.channels c hnd hc hknown
  · intro c _ hknown
    exact postCountIn_congr (foldl_step_unknown C cfg.channels c hknown)
  · intro c hc
    exact postCountIn_congr (foldl_step_lookup_not_mem C cfg.channels c hc)

/-- Witness for the amended C4: on a document with one stored channel at
post count 3 and one admin at 4 posts, an update for 5 succeeded cells over
the stored channel and an unknown id moves the counters to 15 / 3 / 9, bumps
the stored channel to 4, and leaves the unknown id and the unselected fixed
channel untouched. -/
theorem claim_C4_counter_updates_witness :
    (update_stats statsConfig 5 1 ["-1002504723776", "-100999"]
        "7").stats_posts = statsConfig.stats_posts + 5 ∧
    (update_stats statsConfig 5 1 ["-1002504723776", "-100999"]
        "7").stats_batches = statsConfig.stats_batches + 1 ∧
    adminPostCount (update_stats statsConfig 5 1
        ["-1002504723776", "-100999"] "7") "7"
      = adminPostCount statsConfig "7" + 5 ∧
    channelPostCount (update_stats statsConfig 5 1
        ["-1002504723776", "-100999"] "7") "-1002504723776"
      = channelPostCount statsConfig "-1002504723776" + 1 ∧
    channelPostCount (update_stats statsConfig 5 1
        ["-1002504723776", "-100999"] "7") "-100999"
      = channelPostCount statsConfig "-100999" ∧
    channelPostCount (update_stats statsConfig 5 1
        ["-1002504723776", "-100999"] "7") "-1002489624380"
      = channelPostCount statsConfig "-1002489624380" := by
  have h := claim_C4_counter_updates statsConfig 5
    ["-1002504723776", "-100999"] "7" (by decide) (by decide) (by decide)
  exact ⟨h.1, h.2.1, h.2.2.1,
    h.2.2.2.1 "-1002504723776" (by decide) (by decide),
    h.2.2.2.2.1 "-100999" (by decide) (by decide),
    h.2.2.2.2.2 "-1002489624380" (by decide)⟩

end ChannelManager
